import Mathlib

/-!
Verification development for the nanomaterial-toxicity prediction service
(`webapp/app.py` and `api/index.py`; the two Flask apps are line-for-line
identical in every function modelled here, so each definition below embeds
both).  The request handlers are shallowly embedded as pure Lean functions:
JSON request bodies become an inductive `Json` type, Python exceptions become
`Except PyErr`, and the three pickled artifacts (classifier, scaler, feature
metadata), which are opaque binary blobs not present in the source tree,
are modelled from the spec's contract for them (numeric-vector-in /
probability-vector-out classifier, per-feature affine scaler, ordered
feature-name list).  Machine floats are modelled as rationals; Python
`round(x, n)` is modelled as nearest-integer rounding at `n` digits (the
two agree except exactly at representation-dependent ties, which no theorem
below depends on).
-/

/-- A JSON value, as produced by Flask's `request.get_json()`.  An object is
an association list of key/value pairs (Python dict lookup takes the first
matching key; parsed JSON objects have unique keys anyway). -/
inductive Json where
  | null
  | bool (b : Bool)
  | num (q : ℚ)
  | str (s : String)
  | arr (elems : List Json)
  | obj (entries : List (String × Json))

/-- The Python exceptions that the modelled handler code can raise.
`badRequest` stands for the `HTTPException` Flask's `get_json()` raises on an
absent or unparseable body; all are caught by the handlers' blanket
`except Exception` and surfaced as the generic 500 error. -/
inductive PyErr where
  | typeError
  | keyError
  | attributeError
  | badRequest
deriving DecidableEq

/-- Python dict lookup `d[k]` on an association list: first matching key. -/
def objLookup : List (String × Json) → String → Option Json
  | [], _ => none
  | (k, v) :: rest, n => if n = k then some v else objLookup rest n

/-- Python `k in d` for a dict. -/
def objHasKey : List (String × Json) → String → Bool
  | [], _ => false
  | (k, _) :: rest, n => n = k || objHasKey rest n

/-- Python `n in xs` for a list: equality against each element; a string
compares equal only to an equal string (Python `==` across types is `False`,
never an error). -/
def pyMemArr (n : String) (elems : List Json) : Bool :=
  elems.any fun j => match j with
    | .str s => s = n
    | _ => false

/-- Python membership `n in data` (`app.py:86`): key test on dicts, element
test on lists, substring test on strings; `TypeError` on `None`, numbers and
booleans ("argument of type ... is not iterable"). -/
def pyContains (n : String) : Json → Except PyErr Bool
  | .obj entries => .ok (objHasKey entries n)
  | .arr elems => .ok (pyMemArr n elems)
  | .str s => .ok (decide (n.data <:+: s.data))
  | _ => .error .typeError

/-- Python subscription `data[n]` with a string index (`app.py:87`): dict
lookup (`KeyError` when absent); `TypeError` on every other type (list and
string indices must be integers). -/
def pyGetItem (data : Json) (n : String) : Except PyErr Json :=
  match data with
  | .obj entries =>
    match objLookup entries n with
    | some v => .ok v
    | none => .error .keyError
  | _ => .error .typeError

/-- Python `float(v)` (`app.py:87`): numbers pass through, booleans coerce to
0/1, everything else raises.  (Python would also parse numeric strings; no
theorem below feeds a string-valued feature, so string parsing is not
modelled and a string value counts as non-coercible.) -/
def pyFloat : Json → Except PyErr ℚ
  | .num q => .ok q
  | .bool b => .ok (if b then 1 else 0)
  | _ => .error .typeError

/-- Outcome of the feature-extraction loop (`app.py:85-93`): either the full
ordered vector, the first absent feature name (the loop returns a 400 there),
or a raised exception. -/
inductive ExtractResult where
  | ok (features : List ℚ)
  | missing (name : String)
  | exn (e : PyErr)

/-- The extraction loop of `predict` and `detailed_analysis`
(`app.py:85-93`, `app.py:257-262`): iterate the feature names in order; for a
present name coerce the value to float, on the first absent name stop with
that name. -/
def extractFeatures (data : Json) : List String → ExtractResult
  | [] => .ok []
  | n :: rest =>
    match pyContains n data with
    | .error e => .exn e
    | .ok false => .missing n
    | .ok true =>
      match pyGetItem data n with
      | .error e => .exn e
      | .ok v =>
        match pyFloat v with
        | .error e => .exn e
        | .ok q =>
          match extractFeatures data rest with
          | .ok qs => .ok (q :: qs)
          | r => r

/-- Modelled from the spec: the pickled `StandardScaler` artifact
(`feature_scaler.pkl`) is absent from the source tree; per spec §3/§4.2 it is
an immutable per-feature affine transform `(x - mean) / scale`. -/
structure Scaler where
  mean : Nat → ℚ
  scale : Nat → ℚ

/-- `scaler.transform` on a single row: per-feature `(x - mean) / scale`. -/
def Scaler.transform (sc : Scaler) (v : List ℚ) : List ℚ :=
  v.mapIdx fun i x => (x - sc.mean i) / sc.scale i

/-- Modelled from the spec: the pickled classifier artifact
(`nanomaterial_toxicity_model.pkl`) is absent from the source tree; per the
spec it is an opaque estimator exposing a two-class probability vector
(`predict_proba`) and per-feature importance scores. -/
structure Model where
  proba : List ℚ → ℚ × ℚ
  importances : Nat → ℚ

/-- Modelled from the spec: `model.predict` — spec §4.2 step 3 specifies the
class label as the argmax of the two-class probability vector (first index on
a tie, matching argmax). -/
def Model.predictClass (m : Model) (v : List ℚ) : Nat :=
  if (m.proba v).1 < (m.proba v).2 then 1 else 0

/-- Modelled from the spec: the pickled feature-metadata artifact
(`feature_info.pkl`): an ordered feature-name list plus per-feature
descriptions. -/
structure FeatureInfo where
  names : List String
  descriptions : String → String

/-- Python `round(q, n)` on the rationals modelling the floats: nearest
multiple of `10 ^ (-n)` (ties-to-even float behaviour differs only exactly at
ties, which nothing below depends on). -/
def pyRound (q : ℚ) (ndigits : Nat) : ℚ :=
  (round (q * (10 : ℚ) ^ ndigits) : ℤ) / (10 : ℚ) ^ ndigits

/-- Python `data.get(key, default)` where the defaults in the risk-factor and
recommendation checks are numbers (`app.py:165-174`); raises
`AttributeError` when `data` is not a dict, which `riskFactorsJson` handles. -/
def pyGet (entries : List (String × Json)) (key : String) (dflt : ℚ) : Json :=
  (objLookup entries key).getD (.num dflt)

/-- Python `v < t` against a number: numeric and boolean compare (a bool is
an int), anything else raises `TypeError`. -/
def pyLtNum : Json → ℚ → Except PyErr Bool
  | .num q, t => .ok (decide (q < t))
  | .bool b, t => .ok (decide ((if b then (1 : ℚ) else 0) < t))
  | _, _ => .error .typeError

/-- Python `v > t` against a number. -/
def pyGtNum : Json → ℚ → Except PyErr Bool
  | .num q, t => .ok (decide (t < q))
  | .bool b, t => .ok (decide (t < (if b then (1 : ℚ) else 0)))
  | _, _ => .error .typeError

/-- Python `v == t` against a number: never raises; non-numeric values are
simply unequal. -/
def pyEqNum : Json → ℚ → Bool
  | .num q, t => decide (q = t)
  | .bool b, t => decide ((if b then (1 : ℚ) else 0) = t)
  | _, _ => false

/-- Risk-factor string for small particle size (`app.py:166`). -/
def factorSize : String := "Small particle size increases bioavailability"

/-- Risk-factor string for high surface area (`app.py:168`). -/
def factorSurface : String := "High surface area enhances reactivity"

/-- Risk-factor string for high concentration (`app.py:170`). -/
def factorConc : String := "High concentration increases exposure risk"

/-- Risk-factor string for metal nanoparticles (`app.py:172`). -/
def factorMetal : String := "Metal nanoparticles can have higher toxicity"

/-- Risk-factor string for high aspect ratio (`app.py:174`). -/
def factorAspect : String := "High aspect ratio (fiber-like) may cause inflammation"

/-- The risk-factor block of `predict` (`app.py:163-174`): five independent
threshold checks on the raw (unscaled) request values, each appending its
fixed string; evaluated top to bottom, a comparison exception aborts the
block. -/
def riskFactorsOf (entries : List (String × Json)) : Except PyErr (List String) :=
  match pyLtNum (pyGet entries "particle_size_nm" 0) 50 with
  | .error e => .error e
  | .ok b1 =>
    match pyGtNum (pyGet entries "surface_area_m2g" 0) 100 with
    | .error e => .error e
    | .ok b2 =>
      match pyGtNum (pyGet entries "concentration_mgl" 0) 100 with
      | .error e => .error e
      | .ok b3 =>
        let b4 := pyEqNum (pyGet entries "material_type" 0) 1
        match pyGtNum (pyGet entries "aspect_ratio" 1) 10 with
        | .error e => .error e
        | .ok b5 =>
          .ok ((if b1 then [factorSize] else []) ++ (if b2 then [factorSurface] else []) ++
            (if b3 then [factorConc] else []) ++ (if b4 then [factorMetal] else []) ++
            (if b5 then [factorAspect] else []))

/-- `data.get` is only defined on dicts; on any other body the risk-factor
block raises `AttributeError`. -/
def riskFactorsJson : Json → Except PyErr (List String)
  | .obj entries => riskFactorsOf entries
  | _ => .error .attributeError

/-- The value a risk/recommendation check reads for `key`: the request's
numeric value when present, else the literal default (only reached on
all-numeric dicts, where it coincides with `pyGet` + `pyFloat`-free use). -/
def lookupQ (entries : List (String × Json)) (key : String) (dflt : ℚ) : ℚ :=
  match objLookup entries key with
  | some (.num q) => q
  | _ => dflt

/-- The five raw-value risk checks of `app.py:165-174` as a quintuple of
booleans, for an all-numeric request body. -/
def firesN (entries : List (String × Json)) : Bool × Bool × Bool × Bool × Bool :=
  (decide (lookupQ entries "particle_size_nm" 0 < 50),
   decide (100 < lookupQ entries "surface_area_m2g" 0),
   decide (100 < lookupQ entries "concentration_mgl" 0),
   decide (lookupQ entries "material_type" 0 = 1),
   decide (10 < lookupQ entries "aspect_ratio" 1))

/-- The risk-factor list determined by which of the five checks fire, in the
source's fixed order. -/
def factorList (b : Bool × Bool × Bool × Bool × Bool) : List String :=
  (if b.1 then [factorSize] else []) ++ (if b.2.1 then [factorSurface] else []) ++
    (if b.2.2.1 then [factorConc] else []) ++ (if b.2.2.2.1 then [factorMetal] else []) ++
    (if b.2.2.2.2 then [factorAspect] else [])

/-- Calls into the opaque ML artifacts, recorded in order so that theorems
can state that neither the scaler nor the classifier was invoked on an error
path. -/
inductive MLCall where
  | scalerTransform
  | predictProba
  | predictLabel
deriving DecidableEq

/-- The `(step, status)` entries of `predict`'s `status_log`; the
elapsed-time offsets of the source are wall-clock and not modelled. -/
def logValidating : List (String × String) := [("validation", "processing")]

/-- The status log accumulated up to the start of the interpretation step
(`app.py:74-149`), as attached to a failure inside the risk-factor block. -/
def logInterpreting : List (String × String) :=
  [("validation", "processing"), ("validation", "completed"),
   ("preprocessing", "processing"), ("preprocessing", "completed"),
   ("prediction", "processing"), ("prediction", "completed"),
   ("interpretation", "processing")]

/-- The complete status log of a successful prediction (`app.py:74-181`). -/
def logComplete : List (String × String) :=
  logInterpreting ++ [("interpretation", "completed")]

/-- The successful `/predict` response payload (`app.py:186-200`); the top-5
feature-importance table, processing time and timestamp are not referenced by
any claim and are omitted. -/
structure PredictResult where
  prediction : Nat
  prediction_text : String
  confidence : ℚ
  non_toxic : ℚ
  toxic : ℚ
  risk_level : String
  risk_factors : List String
  status_log : List (String × String)
deriving DecidableEq

/-- The four ways `/predict` responds: 200 success, 400 missing feature
(with the status log so far), 500 generic failure from a caught exception
(with the status log so far), and 500 model-not-loaded. -/
inductive PredictResponse where
  | success (r : PredictResult)
  | missingFeature (name : String) (log : List (String × String))
  | failed (e : PyErr) (log : List (String × String))
  | notLoaded
deriving DecidableEq

/-- The HTTP status code attached to each `/predict` response. -/
def PredictResponse.statusCode : PredictResponse → Nat
  | .success _ => 200
  | .missingFeature _ _ => 400
  | .failed _ _ => 500
  | .notLoaded => 500

/-- The `error` field of an error response of `/predict` (`app.py:63,91,206`);
the generic failure appends `str(e)`, abstracted here. -/
def PredictResponse.errorText : PredictResponse → Option String
  | .success _ => none
  | .missingFeature n _ => some ("Missing feature: " ++ n)
  | .failed _ _ => some "Prediction failed"
  | .notLoaded => some "Model not loaded properly"

/-- The `/predict` handler (`app.py:59-208` and identically
`api/index.py:108-257`).  `body = none` models an absent/unparseable request
body, on which `request.get_json()` raises inside the `try`.  The second
component records the calls made into the scaler and classifier. -/
def predictHandler (model : Option Model) (scaler : Option Scaler)
    (featureInfo : Option FeatureInfo) (body : Option Json) :
    PredictResponse × List MLCall :=
  match model, scaler, featureInfo with
  | some m, some sc, some fi =>
    (match body with
    | none => (.failed .badRequest [], [])
    | some data =>
      match extractFeatures data fi.names with
      | .exn e => (.failed e logValidating, [])
      | .missing n => (.missingFeature n logValidating, [])
      | .ok features =>
        let scaled := sc.transform features
        let p := m.proba scaled
        let cls := m.predictClass scaled
        let calls := [MLCall.scalerTransform, MLCall.predictProba, MLCall.predictLabel]
        match riskFactorsJson data with
        | .error e => (.failed e logInterpreting, calls)
        | .ok rfs =>
          (.success {
            prediction := cls,
            prediction_text := if cls = 1 then "Toxic" else "Non-Toxic",
            confidence := pyRound (max p.1 p.2 * 100) 2,
            non_toxic := pyRound (p.1 * 100) 2,
            toxic := pyRound (p.2 * 100) 2,
            risk_level :=
              if p.2 * 100 > 70 then "High"
              else if p.2 * 100 > 40 then "Medium" else "Low",
            risk_factors := rfs,
            status_log := logComplete }, calls))
  | _, _, _ => (.notLoaded, [])

/-- The per-feature risk tier of `detailed_analysis` (`app.py:297-306`): an
elif chain keyed on the feature name, so each name sees only its own
threshold. -/
def featureRiskLevel (name : String) (value : ℚ) : String :=
  if name = "particle_size_nm" ∧ value < 50 then "High"
  else if name = "surface_area_m2g" ∧ value > 200 then "Medium"
  else if name = "concentration_mgl" ∧ value > 500 then "High"
  else if name = "zeta_potential_mv" ∧ |value| < 15 then "Medium"
  else "Low"

/-- One entry of `detailed_analysis`'s `feature_analysis` (`app.py:308-314`). -/
structure FeatureEntry where
  name : String
  value : ℚ
  description : String
  importance : ℚ
  risk_level : String
  normalized : ℚ
deriving DecidableEq

/-- The `feature_analysis` loop (`app.py:293-314`): one entry per
`(name, raw value, scaled value)` triple, with the running index reading the
classifier's importance vector. -/
def featureEntries (m : Model) (descs : String → String) :
    Nat → List (String × ℚ × ℚ) → List FeatureEntry
  | _, [] => []
  | i, (n, v, s) :: rest =>
    { name := n, value := v, description := descs n,
      importance := pyRound (m.importances i) 4,
      risk_level := featureRiskLevel n v,
      normalized := pyRound s 3 } :: featureEntries m descs (i + 1) rest

/-- Recommendation string for small particle size (`app.py:325`). -/
def recSize : String := "Consider larger particle sizes to reduce bioavailability"

/-- Recommendation string for high concentration (`app.py:327`). -/
def recConc : String := "Reduce concentration to minimize exposure risk"

/-- Recommendation string for high surface area (`app.py:329`). -/
def recSurface : String := "Monitor surface reactivity due to high surface area"

/-- The recommendation block of `detailed_analysis` (`app.py:322-330`):
three raw-value threshold checks in source order. -/
def recommendationsOf (entries : List (String × Json)) : Except PyErr (List String) :=
  match pyLtNum (pyGet entries "particle_size_nm" 0) 50 with
  | .error e => .error e
  | .ok b1 =>
    match pyGtNum (pyGet entries "concentration_mgl" 0) 500 with
    | .error e => .error e
    | .ok b2 =>
      match pyGtNum (pyGet entries "surface_area_m2g" 0) 200 with
      | .error e => .error e
      | .ok b3 =>
        .ok ((if b1 then [recSize] else []) ++ (if b2 then [recConc] else []) ++
          (if b3 then [recSurface] else []))

/-- `data.get` on a non-dict body raises `AttributeError`. -/
def recommendationsJson : Json → Except PyErr (List String)
  | .obj entries => recommendationsOf entries
  | _ => .error .attributeError

/-- The `detailed_analysis` response payload (`app.py:271-348`); the
chart-data aggregates and the always-empty `risk_factors` field are not
referenced by any claim and are omitted. -/
structure Analysis where
  predClass : Nat
  predText : String
  confidence : ℚ
  non_toxic : ℚ
  toxic : ℚ
  feature_analysis : List FeatureEntry
  overall_risk : String
  recommendations : List String
deriving DecidableEq

/-- The four ways `/detailed-analysis` responds (its 400 response carries no
status log; the handler keeps none). -/
inductive DetailedResponse where
  | success (a : Analysis)
  | missingFeature (name : String)
  | failed (e : PyErr)
  | notLoaded
deriving DecidableEq

/-- The HTTP status code attached to each `/detailed-analysis` response. -/
def DetailedResponse.statusCode : DetailedResponse → Nat
  | .success _ => 200
  | .missingFeature _ => 400
  | .failed _ => 500
  | .notLoaded => 500

/-- The `error` field of an error response of `/detailed-analysis`
(`app.py:248,262,353`). -/
def DetailedResponse.errorText : DetailedResponse → Option String
  | .success _ => none
  | .missingFeature n => some ("Missing feature: " ++ n)
  | .failed _ => some "Analysis failed"
  | .notLoaded => some "Model not loaded properly"

/-- The `/detailed-analysis` handler (`app.py:244-353` and identically
`api/index.py:259-368`). -/
def detailedHandler (model : Option Model) (scaler : Option Scaler)
    (featureInfo : Option FeatureInfo) (body : Option Json) :
    DetailedResponse × List MLCall :=
  match model, scaler, featureInfo with
  | some m, some sc, some fi =>
    (match body with
    | none => (.failed .badRequest, [])
    | some data =>
      match extractFeatures data fi.names with
      | .exn e => (.failed e, [])
      | .missing n => (.missingFeature n, [])
      | .ok features =>
        let scaled := sc.transform features
        let p := m.proba scaled
        let cls := m.predictClass scaled
        let calls := [MLCall.scalerTransform, MLCall.predictProba, MLCall.predictLabel]
        match recommendationsJson data with
        | .error e => (.failed e, calls)
        | .ok recs =>
          (.success {
            predClass := cls,
            predText := if cls = 1 then "Toxic" else "Non-Toxic",
            confidence := pyRound (max p.1 p.2 * 100) 2,
            non_toxic := pyRound (p.1 * 100) 2,
            toxic := pyRound (p.2 * 100) 2,
            feature_analysis := featureEntries m fi.descriptions 0
              (fi.names.zip (features.zip scaled)),
            overall_risk :=
              if p.2 > 7/10 then "High"
              else if p.2 > 4/10 then "Medium" else "Low",
            recommendations := recs }, calls))
  | _, _, _ => (.notLoaded, [])

/-- The `/health` response (`app.py:355-364` and identically
`api/index.py:404-413`): a constant `'healthy'` status plus one boolean
per artifact; always HTTP 200. -/
structure HealthReport where
  status : String
  model_loaded : Bool
  scaler_loaded : Bool
  features_loaded : Bool
deriving DecidableEq

/-- The `/health` handler, returning the report and its HTTP status code. -/
def healthCheck (model : Option Model) (scaler : Option Scaler)
    (featureInfo : Option FeatureInfo) : HealthReport × Nat :=
  ({ status := "healthy",
     model_loaded := model.isSome,
     scaler_loaded := scaler.isSome,
     features_loaded := featureInfo.isSome }, 200)

/-! ## Concrete artifacts and inputs -/

/-- Modelled from the spec: the content of the `feature_info.pkl` artifact is
absent from the source tree; spec §3 fixes the ordered feature list (particle
size, surface area, zeta potential, pH, concentration, material type flag,
crystallinity, porosity, hydrophobicity, aspect ratio), the same list, in the
same order, that `model_trainer.py:24-36` builds. -/
def specFeatureNames : List String :=
  ["particle_size_nm", "surface_area_m2g", "zeta_potential_mv", "ph",
   "concentration_mgl", "material_type", "crystallinity", "porosity",
   "hydrophobicity", "aspect_ratio"]

/-- Modelled from the spec: the loaded feature metadata, with the spec §3
feature order; descriptions are opaque strings no claim inspects. -/
def specFeatureInfo : FeatureInfo :=
  { names := specFeatureNames, descriptions := fun n => n }

/-- A concrete instance of the opaque classifier artifact, used to
instantiate theorems at concrete inputs. -/
def demoModel : Model :=
  { proba := fun _ => (3/10, 7/10), importances := fun _ => 1/10 }

/-- A concrete instance of the opaque scaler artifact (identity transform). -/
def demoScaler : Scaler := { mean := fun _ => 0, scale := fun _ => 1 }

/-- The end-to-end scenario input of spec §8 / `verify_deployment.py:48-58`:
nine keys, including `temperature_c` and `exposure_time_h`, but lacking
`crystallinity`, `porosity` and `hydrophobicity` from the spec §3 list. -/
def scenarioInput : List (String × Json) :=
  [("particle_size_nm", .num 25), ("surface_area_m2g", .num 150),
   ("concentration_mgl", .num 100), ("ph", .num (37/5)),
   ("temperature_c", .num 25), ("zeta_potential_mv", .num (-30)),
   ("material_type", .num 1), ("exposure_time_h", .num 24),
   ("aspect_ratio", .num (3/2))]

/-- A complete numeric request body over the spec feature list, with particle
size 30 (below both the 50 risk-factor threshold and the 50 per-feature tier
threshold). -/
def input30 : List (String × Json) :=
  [("particle_size_nm", .num 30), ("surface_area_m2g", .num 150),
   ("zeta_potential_mv", .num (-30)), ("ph", .num 7),
   ("concentration_mgl", .num 100), ("material_type", .num 1),
   ("crystallinity", .num 0), ("porosity", .num 0),
   ("hydrophobicity", .num 0), ("aspect_ratio", .num 2)]

/-- A complete numeric request body realising a chosen subset of the five
risk-factor checks: each component of `b` toggles exactly one checked field
across its threshold, the unchecked fields held fixed. -/
def mkInput (b : Bool × Bool × Bool × Bool × Bool) : List (String × Json) :=
  [("particle_size_nm", .num (if b.1 then 30 else 60)),
   ("surface_area_m2g", .num (if b.2.1 then 150 else 50)),
   ("zeta_potential_mv", .num (-20)), ("ph", .num 7),
   ("concentration_mgl", .num (if b.2.2.1 then 150 else 50)),
   ("material_type", .num (if b.2.2.2.1 then 1 else 0)),
   ("crystallinity", .num 0), ("porosity", .num 0),
   ("hydrophobicity", .num 0),
   ("aspect_ratio", .num (if b.2.2.2.2 then 12 else 2))]

/-! ## Validity predicates and extraction lemmas -/

/-- Every value of the request body is a JSON number (spec §6: "flat JSON
object of feature name → number"). -/
def allNumeric (entries : List (String × Json)) : Bool :=
  entries.all fun p => match p.2 with | .num _ => true | _ => false

/-- Every required feature name is present in the body. -/
def hasAllNames (names : List String) (entries : List (String × Json)) : Bool :=
  names.all (objHasKey entries)

theorem objLookup_num (entries : List (String × Json)) (n : String)
    (hnum : allNumeric entries = true) (h : objHasKey entries n = true) :
    objLookup entries n = some (.num (lookupQ entries n 0)) := by
  induction entries with
  | nil => simp [objHasKey] at h
  | cons p rest ih =>
    obtain ⟨k, v⟩ := p
    simp only [allNumeric, List.all_cons, Bool.and_eq_true] at hnum
    by_cases hk : n = k
    · subst hk
      cases v with
      | num q => simp [objLookup, lookupQ]
      | null => simp at hnum
      | bool b => simp at hnum
      | str s => simp at hnum
      | arr xs => simp at hnum
      | obj es => simp at hnum
    · simp only [objHasKey, Bool.or_eq_true, decide_eq_true_eq] at h
      rcases h with h | h
      · exact absurd h hk
      · simpa [objLookup, lookupQ, hk] using ih hnum.2 h

theorem objLookup_mem_num (entries : List (String × Json)) (k : String) (v : Json)
    (hnum : allNumeric entries = true) (hl : objLookup entries k = some v) :
    ∃ q, v = .num q := by
  induction entries with
  | nil => simp [objLookup] at hl
  | cons p rest ih =>
    obtain ⟨k', v'⟩ := p
    simp only [allNumeric, List.all_cons, Bool.and_eq_true] at hnum
    simp only [objLookup] at hl
    by_cases hkk : k = k'
    · rw [if_pos hkk] at hl
      cases hl
      cases v with
      | num q => exact ⟨q, rfl⟩
      | null => simp at hnum
      | bool b => simp at hnum
      | str s => simp at hnum
      | arr xs => simp at hnum
      | obj es => simp at hnum
    · rw [if_neg hkk] at hl
      exact ih hnum.2 hl

theorem pyGet_num (entries : List (String × Json)) (k : String) (d : ℚ)
    (hnum : allNumeric entries = true) :
    pyGet entries k d = .num (lookupQ entries k d) := by
  unfold pyGet lookupQ
  cases hl : objLookup entries k with
  | none => rfl
  | some v =>
    obtain ⟨q, rfl⟩ := objLookup_mem_num entries k v hnum hl
    rfl

theorem extractFeatures_ok (entries : List (String × Json)) (names : List String)
    (hnum : allNumeric entries = true)
    (hall : hasAllNames names entries = true) :
    extractFeatures (.obj entries) names =
      .ok (names.map fun n => lookupQ entries n 0) := by
  induction names with
  | nil => rfl
  | cons n rest ih =>
    simp only [hasAllNames, List.all_cons, Bool.and_eq_true] at hall
    have hk : objHasKey entries n = true := hall.1
    have hrest := ih hall.2
    have hget : pyGetItem (.obj entries) n = .ok (.num (lookupQ entries n 0)) := by
      simp only [pyGetItem]
      rw [objLookup_num entries n hnum hk]
    simp only [extractFeatures, pyContains, hk, hget, pyFloat, hrest, List.map]

theorem riskFactorsOf_numeric (entries : List (String × Json))
    (hnum : allNumeric entries = true) :
    riskFactorsOf entries = .ok (factorList (firesN entries)) := by
  unfold riskFactorsOf
  rw [pyGet_num entries "particle_size_nm" 0 hnum,
    pyGet_num entries "surface_area_m2g" 0 hnum,
    pyGet_num entries "concentration_mgl" 0 hnum,
    pyGet_num entries "material_type" 0 hnum,
    pyGet_num entries "aspect_ratio" 1 hnum]
  rfl

/-- The three raw-value recommendation checks of `app.py:324-328` as a triple
of booleans, for an all-numeric request body. -/
def recFiresN (entries : List (String × Json)) : Bool × Bool × Bool :=
  (decide (lookupQ entries "particle_size_nm" 0 < 50),
   decide (500 < lookupQ entries "concentration_mgl" 0),
   decide (200 < lookupQ entries "surface_area_m2g" 0))

/-- The recommendation list determined by which of the three checks fire. -/
def recList (b : Bool × Bool × Bool) : List String :=
  (if b.1 then [recSize] else []) ++ (if b.2.1 then [recConc] else []) ++
    (if b.2.2 then [recSurface] else [])

theorem recommendationsOf_numeric (entries : List (String × Json))
    (hnum : allNumeric entries = true) :
    recommendationsOf entries = .ok (recList (recFiresN entries)) := by
  unfold recommendationsOf
  rw [pyGet_num entries "particle_size_nm" 0 hnum,
    pyGet_num entries "concentration_mgl" 0 hnum,
    pyGet_num entries "surface_area_m2g" 0 hnum]
  rfl

/-! ## Success-path characterization of the two handlers -/

/-- The feature vector `/predict` extracts from a valid body: the body's
numeric value for each name, in `feature_info` order. -/
def extractedVector (fi : FeatureInfo) (entries : List (String × Json)) : List ℚ :=
  fi.names.map fun n => lookupQ entries n 0

/-- The probability pair the classifier produces for a valid body. -/
def probaOf (m : Model) (sc : Scaler) (fi : FeatureInfo)
    (entries : List (String × Json)) : ℚ × ℚ :=
  m.proba (sc.transform (extractedVector fi entries))

/-- The payload `/predict` returns on a valid all-numeric body, spelled out
field by field; `predict_success` proves the handler returns exactly this. -/
def predictOutcome (m : Model) (sc : Scaler) (fi : FeatureInfo)
    (entries : List (String × Json)) : PredictResult :=
  let scaled := sc.transform (extractedVector fi entries)
  let p := m.proba scaled
  { prediction := m.predictClass scaled,
    prediction_text := if m.predictClass scaled = 1 then "Toxic" else "Non-Toxic",
    confidence := pyRound (max p.1 p.2 * 100) 2,
    non_toxic := pyRound (p.1 * 100) 2,
    toxic := pyRound (p.2 * 100) 2,
    risk_level :=
      if p.2 * 100 > 70 then "High"
      else if p.2 * 100 > 40 then "Medium" else "Low",
    risk_factors := factorList (firesN entries),
    status_log := logComplete }

/-- The payload `/detailed-analysis` returns on a valid all-numeric body. -/
def detailedOutcome (m : Model) (sc : Scaler) (fi : FeatureInfo)
    (entries : List (String × Json)) : Analysis :=
  let vals := extractedVector fi entries
  let scaled := sc.transform vals
  let p := m.proba scaled
  { predClass := m.predictClass scaled,
    predText := if m.predictClass scaled = 1 then "Toxic" else "Non-Toxic",
    confidence := pyRound (max p.1 p.2 * 100) 2,
    non_toxic := pyRound (p.1 * 100) 2,
    toxic := pyRound (p.2 * 100) 2,
    feature_analysis := featureEntries m fi.descriptions 0 (fi.names.zip (vals.zip scaled)),
    overall_risk :=
      if p.2 > 7/10 then "High"
      else if p.2 > 4/10 then "Medium" else "Low",
    recommendations := recList (recFiresN entries) }

theorem predict_success (m : Model) (sc : Scaler) (fi : FeatureInfo)
    (entries : List (String × Json))
    (hnum : allNumeric entries = true)
    (hall : hasAllNames fi.names entries = true) :
    predictHandler (some m) (some sc) (some fi) (some (.obj entries)) =
      (.success (predictOutcome m sc fi entries),
       [MLCall.scalerTransform, MLCall.predictProba, MLCall.predictLabel]) := by
  simp only [predictHandler]
  rw [extractFeatures_ok entries fi.names hnum hall]
  simp only [riskFactorsJson, riskFactorsOf_numeric entries hnum]
  rfl

theorem detailed_success (m : Model) (sc : Scaler) (fi : FeatureInfo)
    (entries : List (String × Json))
    (hnum : allNumeric entries = true)
    (hall : hasAllNames fi.names entries = true) :
    detailedHandler (some m) (some sc) (some fi) (some (.obj entries)) =
      (.success (detailedOutcome m sc fi entries),
       [MLCall.scalerTransform, MLCall.predictProba, MLCall.predictLabel]) := by
  simp only [detailedHandler]
  rw [extractFeatures_ok entries fi.names hnum hall]
  simp only [recommendationsJson, recommendationsOf_numeric entries hnum]
  rfl

/-- On any all-numeric body missing at least one required feature, both
handlers return the first absent name (in `feature_info` order) and never
reach the scaler or the classifier. -/
theorem extractFeatures_first_missing (entries : List (String × Json))
    (names : List String) (hnum : allNumeric entries = true) (n : String)
    (hmem : n ∈ names) (habs : objHasKey entries n = false) :
    ∃ pre n0 post, names = pre ++ n0 :: post ∧
      (∀ p ∈ pre, objHasKey entries p = true) ∧
      objHasKey entries n0 = false ∧
      extractFeatures (.obj entries) names = .missing n0 := by
  induction names with
  | nil => cases hmem
  | cons a rest ih =>
    by_cases ha : objHasKey entries a = true
    · have hmem' : n ∈ rest := by
        rcases List.mem_cons.mp hmem with h | h
        · exact absurd (h ▸ ha) (by simp [habs])
        · exact h
      obtain ⟨pre, n0, post, heq, hpre, hn0, hext⟩ := ih hmem'
      refine ⟨a :: pre, n0, post, by simp [heq], ?_, hn0, ?_⟩
      · intro p hp
        rcases List.mem_cons.mp hp with h | h
        · exact h ▸ ha
        · exact hpre p h
      · have hget : pyGetItem (.obj entries) a = .ok (.num (lookupQ entries a 0)) := by
          simp only [pyGetItem]
          rw [objLookup_num entries a hnum ha]
        simp only [extractFeatures, pyContains, ha, hget, pyFloat, hext]
    · refine ⟨[], a, rest, rfl, by simp, by simpa using ha, ?_⟩
      simp only [extractFeatures, pyContains]
      rw [Bool.not_eq_true] at ha
      simp [ha]

/-! ## Helper lemmas for the claims -/

theorem mem_factorList (b : Bool × Bool × Bool × Bool × Bool) (x : String) :
    x ∈ factorList b ↔
      (b.1 = true ∧ x = factorSize) ∨ (b.2.1 = true ∧ x = factorSurface) ∨
      (b.2.2.1 = true ∧ x = factorConc) ∨ (b.2.2.2.1 = true ∧ x = factorMetal) ∨
      (b.2.2.2.2 = true ∧ x = factorAspect) := by
  obtain ⟨b1, b2, b3, b4, b5⟩ := b
  cases b1 <;> cases b2 <;> cases b3 <;> cases b4 <;> cases b5 <;>
    simp [factorList]

theorem mem_featureEntries (m : Model) (descs : String → String) (i : Nat)
    (l : List (String × ℚ × ℚ)) (e : FeatureEntry)
    (he : e ∈ featureEntries m descs i l) :
    e.risk_level = featureRiskLevel e.name e.value := by
  induction l generalizing i with
  | nil => cases he
  | cons t rest ih =>
    obtain ⟨n, v, s⟩ := t
    rcases List.mem_cons.mp he with h | h
    · subst h; rfl
    · exact ih (i + 1) h

theorem abs_pyRound2_sub (q : ℚ) : |pyRound q 2 - q| ≤ 1/200 := by
  unfold pyRound
  have h : |(round (q * (10 : ℚ) ^ 2) : ℚ) - q * (10 : ℚ) ^ 2| ≤ 1/2 := by
    rw [abs_sub_comm]
    exact abs_sub_round _
  have h100 : ((10 : ℚ) ^ 2) = 100 := by norm_num
  rw [h100] at h ⊢
  have heq : (round (q * 100) : ℚ) / 100 - q = ((round (q * 100) : ℚ) - q * 100) / 100 := by
    ring
  rw [heq, abs_div, abs_of_pos (show (0:ℚ) < 100 by norm_num)]
  linarith

/-- The per-feature tier thresholds exactly as the claim states them, keyed
by feature name; `featureRiskLevel_eq_specTier` proves the source's elif
chain computes this. -/
def specTier (name : String) (v : ℚ) : String :=
  if name = "particle_size_nm" then (if v < 50 then "High" else "Low")
  else if name = "surface_area_m2g" then (if v > 200 then "Medium" else "Low")
  else if name = "concentration_mgl" then (if v > 500 then "High" else "Low")
  else if name = "zeta_potential_mv" then (if |v| < 15 then "Medium" else "Low")
  else "Low"

theorem featureRiskLevel_eq_specTier (n : String) (v : ℚ) :
    featureRiskLevel n v = specTier n v := by
  unfold featureRiskLevel specTier
  by_cases h1 : n = "particle_size_nm"
  · subst h1
    simp +decide
  · by_cases h2 : n = "surface_area_m2g"
    · subst h2
      simp +decide
    · by_cases h3 : n = "concentration_mgl"
      · subst h3
        simp +decide
      · by_cases h4 : n = "zeta_potential_mv"
        · subst h4
          simp +decide
        · simp [h1, h2, h3, h4]

/-! ## The claims -/

/-- C10: `/health` returns HTTP 200 with `status` equal to the literal
`'healthy'` in every load state, including when model, scaler and
feature_info are all `None`; only the three boolean loaded flags vary with
which artifacts loaded. -/
theorem claim_C10_health_always_healthy
    (m : Option Model) (sc : Option Scaler) (fi : Option FeatureInfo) :
    (healthCheck m sc fi).1.status = "healthy" ∧ (healthCheck m sc fi).2 = 200 ∧
      (healthCheck m sc fi).1.model_loaded = m.isSome ∧
      (healthCheck m sc fi).1.scaler_loaded = sc.isSome ∧
      (healthCheck m sc fi).1.features_loaded = fi.isSome :=
  ⟨rfl, rfl, rfl, rfl, rfl⟩

/-- C7: whenever any of the three artifacts is `None`, `/health` reports the
corresponding loaded flag as `false`, and in that state every POST to
`/predict` returns HTTP 500 with the model-not-loaded error before any
extraction or inference (the response is independent of the body and the
call list is empty). -/
theorem claim_C7_not_loaded_500 (m : Option Model) (sc : Option Scaler)
    (fi : Option FeatureInfo) (body : Option Json)
    (h : m = none ∨ sc = none ∨ fi = none) :
    ((m = none → (healthCheck m sc fi).1.model_loaded = false) ∧
     (sc = none → (healthCheck m sc fi).1.scaler_loaded = false) ∧
     (fi = none → (healthCheck m sc fi).1.features_loaded = false)) ∧
    predictHandler m sc fi body = (.notLoaded, []) ∧
    PredictResponse.statusCode .notLoaded = 500 ∧
    PredictResponse.errorText .notLoaded = some "Model not loaded properly" := by
  refine ⟨⟨fun hm => by simp [healthCheck, hm], fun hs => by simp [healthCheck, hs],
    fun hf => by simp [healthCheck, hf]⟩, ?_, rfl, rfl⟩
  cases m with
  | none => rfl
  | some m' =>
    cases sc with
    | none => rfl
    | some sc' =>
      cases fi with
      | none => rfl
      | some fi' => rcases h with h | h | h <;> simp at h

theorem claim_C7_witness :
    predictHandler none (some demoScaler) (some specFeatureInfo) none = (.notLoaded, []) ∧
    (healthCheck none (some demoScaler) (some specFeatureInfo)).1.model_loaded = false :=
  ⟨(claim_C7_not_loaded_500 none (some demoScaler) (some specFeatureInfo) none
      (Or.inl rfl)).2.1,
   (claim_C7_not_loaded_500 none (some demoScaler) (some specFeatureInfo) none
      (Or.inl rfl)).1.1 rfl⟩

/-- C1: for every feature mapping (name → number) lacking at least one name
from the fixed ordered feature list, both `/predict` and `/detailed-analysis`
return HTTP 400 with an error naming a missing feature, and neither the
scaler transform nor the classifier is invoked before that return (the
recorded call list is empty). -/
theorem claim_C1_missing_feature_400 (m : Model) (sc : Scaler) (fi : FeatureInfo)
    (entries : List (String × Json)) (hnum : allNumeric entries = true)
    (n : String) (hmem : n ∈ fi.names) (habs : objHasKey entries n = false) :
    ∃ n0, n0 ∈ fi.names ∧ objHasKey entries n0 = false ∧
      predictHandler (some m) (some sc) (some fi) (some (.obj entries)) =
        (.missingFeature n0 logValidating, []) ∧
      detailedHandler (some m) (some sc) (some fi) (some (.obj entries)) =
        (.missingFeature n0, []) ∧
      (PredictResponse.missingFeature n0 logValidating).statusCode = 400 ∧
      (DetailedResponse.missingFeature n0).statusCode = 400 ∧
      (PredictResponse.missingFeature n0 logValidating).errorText =
        some ("Missing feature: " ++ n0) ∧
      (DetailedResponse.missingFeature n0).errorText =
        some ("Missing feature: " ++ n0) := by
  obtain ⟨pre, n0, post, heq, hpre, hn0, hext⟩ :=
    extractFeatures_first_missing entries fi.names hnum n hmem habs
  refine ⟨n0, by rw [heq]; simp, hn0, ?_, ?_, rfl, rfl, rfl, rfl⟩
  · simp only [predictHandler, hext]
  · simp only [detailedHandler, hext]

theorem claim_C1_witness :
    ∃ n0, n0 ∈ specFeatureInfo.names ∧ objHasKey scenarioInput n0 = false ∧
      predictHandler (some demoModel) (some demoScaler) (some specFeatureInfo)
          (some (.obj scenarioInput)) = (.missingFeature n0 logValidating, []) ∧
      detailedHandler (some demoModel) (some demoScaler) (some specFeatureInfo)
          (some (.obj scenarioInput)) = (.missingFeature n0, []) ∧
      (PredictResponse.missingFeature n0 logValidating).statusCode = 400 ∧
      (DetailedResponse.missingFeature n0).statusCode = 400 ∧
      (PredictResponse.missingFeature n0 logValidating).errorText =
        some ("Missing feature: " ++ n0) ∧
      (DetailedResponse.missingFeature n0).errorText =
        some ("Missing feature: " ++ n0) :=
  claim_C1_missing_feature_400 demoModel demoScaler specFeatureInfo scenarioInput
    (by decide) "crystallinity" (by decide) (by decide)

/-- C9: when two or more required features are absent, `/predict` and
`/detailed-analysis` name only one of them: the earliest absent name in the
fixed `feature_info['names']` order (every name before it is present), and
extraction stops there, so later absences are never reported. -/
theorem claim_C9_earliest_missing_named (m : Model) (sc : Scaler)
    (fi : FeatureInfo) (entries : List (String × Json))
    (hnum : allNumeric entries = true) (n1 n2 : String) (h12 : n1 ≠ n2)
    (hmem1 : n1 ∈ fi.names) (hmem2 : n2 ∈ fi.names)
    (habs1 : objHasKey entries n1 = false) (habs2 : objHasKey entries n2 = false) :
    ∃ pre n0 post, fi.names = pre ++ n0 :: post ∧
      (∀ p ∈ pre, objHasKey entries p = true) ∧
      objHasKey entries n0 = false ∧
      predictHandler (some m) (some sc) (some fi) (some (.obj entries)) =
        (.missingFeature n0 logValidating, []) ∧
      detailedHandler (some m) (some sc) (some fi) (some (.obj entries)) =
        (.missingFeature n0, []) ∧
      (PredictResponse.missingFeature n0 logValidating).errorText =
        some ("Missing feature: " ++ n0) := by
  obtain ⟨pre, n0, post, heq, hpre, hn0, hext⟩ :=
    extractFeatures_first_missing entries fi.names hnum n1 hmem1 habs1
  refine ⟨pre, n0, post, heq, hpre, hn0, ?_, ?_, rfl⟩
  · simp only [predictHandler, hext]
  · simp only [detailedHandler, hext]

theorem claim_C9_witness :
    ∃ pre n0 post, specFeatureInfo.names = pre ++ n0 :: post ∧
      (∀ p ∈ pre, objHasKey scenarioInput p = true) ∧
      objHasKey scenarioInput n0 = false ∧
      predictHandler (some demoModel) (some demoScaler) (some specFeatureInfo)
          (some (.obj scenarioInput)) = (.missingFeature n0 logValidating, []) ∧
      detailedHandler (some demoModel) (some demoScaler) (some specFeatureInfo)
          (some (.obj scenarioInput)) = (.missingFeature n0, []) ∧
      (PredictResponse.missingFeature n0 logValidating).errorText =
        some ("Missing feature: " ++ n0) :=
  claim_C9_earliest_missing_named demoModel demoScaler specFeatureInfo
    scenarioInput (by decide) "crystallinity" "porosity" (by decide)
    (by decide) (by decide) (by decide) (by decide)

/-- C3 (counterexample): the spec §8 end-to-end scenario input (nine keys,
with `temperature_c` and `exposure_time_h` but without `crystallinity`,
`porosity`, `hydrophobicity`) does NOT get HTTP 200 from `/predict`: under
the spec §3 feature list the handler returns 400 naming `crystallinity`,
whatever classifier and scaler are loaded (shown here at a concrete pair). -/
theorem claim_C3_cex :
    (predictHandler (some demoModel) (some demoScaler) (some specFeatureInfo)
        (some (.obj scenarioInput))).1.statusCode = 400 ∧
    (predictHandler (some demoModel) (some demoScaler) (some specFeatureInfo)
        (some (.obj scenarioInput))).1 =
      .missingFeature "crystallinity" logValidating ∧
    (400 : Nat) ≠ 200 :=
  ⟨rfl, rfl, by decide⟩

/-- C3 (amended): for the spec §8 scenario input, `/predict` returns
HTTP 400 with the error `Missing feature: crystallinity` — the earliest
spec §3 feature name the input lacks — without invoking the scaler or the
classifier, for every loaded classifier and scaler. -/
theorem claim_C3_scenario_400 (m : Model) (sc : Scaler) :
    predictHandler (some m) (some sc) (some specFeatureInfo)
        (some (.obj scenarioInput)) =
      (.missingFeature "crystallinity" logValidating, []) ∧
    (PredictResponse.missingFeature "crystallinity" logValidating).statusCode = 400 ∧
    (PredictResponse.missingFeature "crystallinity" logValidating).errorText =
      some "Missing feature: crystallinity" := by
  refine ⟨?_, rfl, rfl⟩
  simp only [predictHandler]
  rw [show extractFeatures (.obj scenarioInput) specFeatureInfo.names =
    .missing "crystallinity" from rfl]

/-- C8 (counterexample): a request body that is a JSON string (not a JSON
object) supports Python's `in`, so `/predict` DOES return a 400 validation
error on it — the empty-string body yields 400 `Missing feature:
particle_size_nm`, not the claimed generic 500. -/
theorem claim_C8_cex :
    (predictHandler (some demoModel) (some demoScaler) (some specFeatureInfo)
        (some (.str ""))).1.statusCode = 400 ∧
    (predictHandler (some demoModel) (some demoScaler) (some specFeatureInfo)
        (some (.str ""))).1 =
      .missingFeature "particle_size_nm" logValidating :=
  ⟨rfl, rfl⟩

/-- C8 (amended): if the `/predict` body is absent/unparseable, JSON `null`,
a number, or a boolean (and the feature list is nonempty), the membership
test (or body parsing) raises, the exception is caught at the handler
boundary, and the handler returns the generic HTTP 500 `Prediction failed`
error carrying the partial status log — never a 400 validation error.
(JSON strings and arrays support membership and can instead reach the 400
missing-feature path, as the counterexample shows.) -/
theorem claim_C8_non_mapping_500 (m : Model) (sc : Scaler) (fi : FeatureInfo)
    (n : String) (rest : List String) (hnames : fi.names = n :: rest) :
    predictHandler (some m) (some sc) (some fi) none =
      (.failed .badRequest [], []) ∧
    predictHandler (some m) (some sc) (some fi) (some .null) =
      (.failed .typeError logValidating, []) ∧
    (∀ q : ℚ, predictHandler (some m) (some sc) (some fi) (some (.num q)) =
      (.failed .typeError logValidating, [])) ∧
    (∀ b : Bool, predictHandler (some m) (some sc) (some fi) (some (.bool b)) =
      (.failed .typeError logValidating, [])) ∧
    (PredictResponse.failed .typeError logValidating).statusCode = 500 ∧
    (PredictResponse.failed .typeError logValidating).errorText =
      some "Prediction failed" ∧
    logValidating = [("validation", "processing")] := by
  refine ⟨rfl, ?_, fun q => ?_, fun b => ?_, rfl, rfl, rfl⟩ <;>
    simp only [predictHandler, hnames, extractFeatures, pyContains]

theorem claim_C8_witness :
    predictHandler (some demoModel) (some demoScaler) (some specFeatureInfo)
        (some .null) = (.failed .typeError logValidating, []) ∧
    predictHandler (some demoModel) (some demoScaler) (some specFeatureInfo)
        none = (.failed .badRequest [], []) :=
  ⟨(claim_C8_non_mapping_500 demoModel demoScaler specFeatureInfo
      "particle_size_nm" ["surface_area_m2g", "zeta_potential_mv", "ph",
        "concentration_mgl", "material_type", "crystallinity", "porosity",
        "hydrophobicity", "aspect_ratio"] rfl).2.1,
   (claim_C8_non_mapping_500 demoModel demoScaler specFeatureInfo
      "particle_size_nm" ["surface_area_m2g", "zeta_potential_mv", "ph",
        "concentration_mgl", "material_type", "crystallinity", "porosity",
        "hydrophobicity", "aspect_ratio"] rfl).1⟩

/-- C4: for every valid input to `/predict`, the five risk-factor checks
(particle size < 50, surface area > 100, concentration > 100, material-type
flag == 1, aspect ratio > 10) are evaluated independently on the raw
unscaled input values (`risk_factors` equals exactly the list determined by
`firesN` on the raw body), any subset of checks is realisable, and the list
is monotonic: whenever every check firing on one body also fires on
another, every risk factor in the first output is in the second. -/
theorem claim_C4_risk_factors_monotone (m : Model) (sc : Scaler)
    (fi : FeatureInfo) (entries entries' : List (String × Json))
    (hnum : allNumeric entries = true) (hall : hasAllNames fi.names entries = true)
    (hnum' : allNumeric entries' = true) (hall' : hasAllNames fi.names entries' = true)
    (hmono1 : (firesN entries).1 = true → (firesN entries').1 = true)
    (hmono2 : (firesN entries).2.1 = true → (firesN entries').2.1 = true)
    (hmono3 : (firesN entries).2.2.1 = true → (firesN entries').2.2.1 = true)
    (hmono4 : (firesN entries).2.2.2.1 = true → (firesN entries').2.2.2.1 = true)
    (hmono5 : (firesN entries).2.2.2.2 = true → (firesN entries').2.2.2.2 = true) :
    (predictHandler (some m) (some sc) (some fi) (some (.obj entries))).1 =
      .success (predictOutcome m sc fi entries) ∧
    (predictOutcome m sc fi entries).risk_factors = factorList (firesN entries) ∧
    (∀ x ∈ (predictOutcome m sc fi entries).risk_factors,
      x ∈ (predictOutcome m sc fi entries').risk_factors) ∧
    (∀ b : Bool × Bool × Bool × Bool × Bool, firesN (mkInput b) = b) := by
  refine ⟨by rw [predict_success m sc fi entries hnum hall], rfl, ?_, by decide⟩
  intro x hx
  rw [show (predictOutcome m sc fi entries).risk_factors =
    factorList (firesN entries) from rfl, mem_factorList] at hx
  rw [show (predictOutcome m sc fi entries').risk_factors =
    factorList (firesN entries') from rfl, mem_factorList]
  rcases hx with ⟨h, hx⟩ | ⟨h, hx⟩ | ⟨h, hx⟩ | ⟨h, hx⟩ | ⟨h, hx⟩
  · exact Or.inl ⟨hmono1 h, hx⟩
  · exact Or.inr (Or.inl ⟨hmono2 h, hx⟩)
  · exact Or.inr (Or.inr (Or.inl ⟨hmono3 h, hx⟩))
  · exact Or.inr (Or.inr (Or.inr (Or.inl ⟨hmono4 h, hx⟩)))
  · exact Or.inr (Or.inr (Or.inr (Or.inr ⟨hmono5 h, hx⟩)))

theorem claim_C4_witness :
    (predictHandler (some demoModel) (some demoScaler) (some specFeatureInfo)
        (some (.obj (mkInput (false, false, false, false, false))))).1 =
      .success (predictOutcome demoModel demoScaler specFeatureInfo
        (mkInput (false, false, false, false, false))) ∧
    (predictOutcome demoModel demoScaler specFeatureInfo
        (mkInput (false, false, false, false, false))).risk_factors =
      factorList (firesN (mkInput (false, false, false, false, false))) ∧
    (∀ x ∈ (predictOutcome demoModel demoScaler specFeatureInfo
        (mkInput (false, false, false, false, false))).risk_factors,
      x ∈ (predictOutcome demoModel demoScaler specFeatureInfo
        (mkInput (true, true, true, true, true))).risk_factors) ∧
    (∀ b : Bool × Bool × Bool × Bool × Bool, firesN (mkInput b) = b) :=
  claim_C4_risk_factors_monotone demoModel demoScaler specFeatureInfo
    (mkInput (false, false, false, false, false))
    (mkInput (true, true, true, true, true))
    (by decide) (by decide) (by decide) (by decide)
    (by decide) (by decide) (by decide) (by decide) (by decide)

/-- C2: for every valid feature mapping (all required names present, all
values numeric), `/predict` succeeds, the returned `non_toxic` and `toxic`
percentages sum to 100 within rounding (at most 0.01 off), and the returned
class label is the argmax of the two-class probability vector (index 1
exactly when the toxic probability strictly exceeds the non-toxic one). -/
theorem claim_C2_probabilities_sum_argmax (m : Model) (sc : Scaler)
    (fi : FeatureInfo) (entries : List (String × Json))
    (hnum : allNumeric entries = true) (hall : hasAllNames fi.names entries = true)
    (hsum : (probaOf m sc fi entries).1 + (probaOf m sc fi entries).2 = 1) :
    predictHandler (some m) (some sc) (some fi) (some (.obj entries)) =
      (.success (predictOutcome m sc fi entries),
        [MLCall.scalerTransform, MLCall.predictProba, MLCall.predictLabel]) ∧
    |(predictOutcome m sc fi entries).non_toxic +
      (predictOutcome m sc fi entries).toxic - 100| ≤ 1/100 ∧
    (predictOutcome m sc fi entries).prediction =
      (if (probaOf m sc fi entries).1 < (probaOf m sc fi entries).2 then 1 else 0) ∧
    (predictOutcome m sc fi entries).prediction_text =
      (if (predictOutcome m sc fi entries).prediction = 1
        then "Toxic" else "Non-Toxic") := by
  refine ⟨predict_success m sc fi entries hnum hall, ?_, rfl, rfl⟩
  have h1 := abs_pyRound2_sub ((probaOf m sc fi entries).1 * 100)
  have h2 := abs_pyRound2_sub ((probaOf m sc fi entries).2 * 100)
  have hab : (probaOf m sc fi entries).1 * 100 + (probaOf m sc fi entries).2 * 100 = 100 := by
    linear_combination 100 * hsum
  have hnt : (predictOutcome m sc fi entries).non_toxic =
      pyRound ((probaOf m sc fi entries).1 * 100) 2 := rfl
  have htx : (predictOutcome m sc fi entries).toxic =
      pyRound ((probaOf m sc fi entries).2 * 100) 2 := rfl
  rw [hnt, htx]
  have hsplit : pyRound ((probaOf m sc fi entries).1 * 100) 2 +
      pyRound ((probaOf m sc fi entries).2 * 100) 2 - 100 =
      (pyRound ((probaOf m sc fi entries).1 * 100) 2 -
        (probaOf m sc fi entries).1 * 100) +
      (pyRound ((probaOf m sc fi entries).2 * 100) 2 -
        (probaOf m sc fi entries).2 * 100) := by
    linear_combination hab
  rw [hsplit]
  calc |(pyRound ((probaOf m sc fi entries).1 * 100) 2 -
        (probaOf m sc fi entries).1 * 100) +
      (pyRound ((probaOf m sc fi entries).2 * 100) 2 -
        (probaOf m sc fi entries).2 * 100)| ≤
      |pyRound ((probaOf m sc fi entries).1 * 100) 2 -
        (probaOf m sc fi entries).1 * 100| +
      |pyRound ((probaOf m sc fi entries).2 * 100) 2 -
        (probaOf m sc fi entries).2 * 100| := abs_add _ _
    _ ≤ 1/100 := by linarith

theorem claim_C2_witness :
    predictHandler (some demoModel) (some demoScaler) (some specFeatureInfo)
        (some (.obj input30)) =
      (.success (predictOutcome demoModel demoScaler specFeatureInfo input30),
        [MLCall.scalerTransform, MLCall.predictProba, MLCall.predictLabel]) ∧
    |(predictOutcome demoModel demoScaler specFeatureInfo input30).non_toxic +
      (predictOutcome demoModel demoScaler specFeatureInfo input30).toxic - 100| ≤ 1/100 ∧
    (predictOutcome demoModel demoScaler specFeatureInfo input30).prediction =
      (if (probaOf demoModel demoScaler specFeatureInfo input30).1 <
          (probaOf demoModel demoScaler specFeatureInfo input30).2 then 1 else 0) ∧
    (predictOutcome demoModel demoScaler specFeatureInfo input30).prediction_text =
      (if (predictOutcome demoModel demoScaler specFeatureInfo input30).prediction = 1
        then "Toxic" else "Non-Toxic") :=
  claim_C2_probabilities_sum_argmax demoModel demoScaler specFeatureInfo input30
    (by decide) (by decide) (by norm_num [probaOf, demoModel])

/-- C6: for every valid input, `/predict` returns `risk_level` exactly
`High` when the toxic-class percentage exceeds 70, `Medium` when it exceeds
40 but not 70, and `Low` otherwise; `/detailed-analysis` derives
`overall_risk` by the equivalent thresholds 0.7 and 0.4 on the toxic-class
probability, and the two buckets agree on the same input. -/
theorem claim_C6_risk_bucket_thresholds (m : Model) (sc : Scaler)
    (fi : FeatureInfo) (entries : List (String × Json))
    (hnum : allNumeric entries = true) (hall : hasAllNames fi.names entries = true) :
    predictHandler (some m) (some sc) (some fi) (some (.obj entries)) =
      (.success (predictOutcome m sc fi entries),
        [MLCall.scalerTransform, MLCall.predictProba, MLCall.predictLabel]) ∧
    detailedHandler (some m) (some sc) (some fi) (some (.obj entries)) =
      (.success (detailedOutcome m sc fi entries),
        [MLCall.scalerTransform, MLCall.predictProba, MLCall.predictLabel]) ∧
    ((predictOutcome m sc fi entries).risk_level = "High" ↔
      (probaOf m sc fi entries).2 * 100 > 70) ∧
    ((predictOutcome m sc fi entries).risk_level = "Medium" ↔
      ((probaOf m sc fi entries).2 * 100 > 40 ∧
        ¬ (probaOf m sc fi entries).2 * 100 > 70)) ∧
    ((predictOutcome m sc fi entries).risk_level = "Low" ↔
      ¬ (probaOf m sc fi entries).2 * 100 > 40) ∧
    ((detailedOutcome m sc fi entries).overall_risk = "High" ↔
      (probaOf m sc fi entries).2 > 7/10) ∧
    ((detailedOutcome m sc fi entries).overall_risk = "Medium" ↔
      ((probaOf m sc fi entries).2 > 4/10 ∧ ¬ (probaOf m sc fi entries).2 > 7/10)) ∧
    ((detailedOutcome m sc fi entries).overall_risk = "Low" ↔
      ¬ (probaOf m sc fi entries).2 > 4/10) ∧
    (predictOutcome m sc fi entries).risk_level =
      (detailedOutcome m sc fi entries).overall_risk := by
  have hrl : (predictOutcome m sc fi entries).risk_level =
      (if (probaOf m sc fi entries).2 * 100 > 70 then "High"
       else if (probaOf m sc fi entries).2 * 100 > 40 then "Medium" else "Low") := rfl
  have hor : (detailedOutcome m sc fi entries).overall_risk =
      (if (probaOf m sc fi entries).2 > 7/10 then "High"
       else if (probaOf m sc fi entries).2 > 4/10 then "Medium" else "Low") := rfl
  have e1 : ((probaOf m sc fi entries).2 * 100 > 70) ↔
      ((probaOf m sc fi entries).2 > 7/10) := by
    constructor <;> intro h <;> linarith
  have e2 : ((probaOf m sc fi entries).2 * 100 > 40) ↔
      ((probaOf m sc fi entries).2 > 4/10) := by
    constructor <;> intro h <;> linarith
  refine ⟨predict_success m sc fi entries hnum hall,
    detailed_success m sc fi entries hnum hall, ?_, ?_, ?_, ?_, ?_, ?_, ?_⟩
  · rw [hrl]; split_ifs with h1 h2 <;> simp_all +decide <;> linarith
  · rw [hrl]; split_ifs with h1 h2 <;> simp_all +decide <;> linarith
  · rw [hrl]; split_ifs with h1 h2 <;> simp_all +decide <;> linarith
  · rw [hor]; split_ifs with h1 h2 <;> simp_all +decide <;> linarith
  · rw [hor]; split_ifs with h1 h2 <;> simp_all +decide <;> linarith
  · rw [hor]; split_ifs with h1 h2 <;> simp_all +decide <;> linarith
  · rw [hrl, hor]; simp only [e1, e2]

theorem claim_C6_witness :
    ((predictOutcome demoModel demoScaler specFeatureInfo input30).risk_level = "High" ↔
      (probaOf demoModel demoScaler specFeatureInfo input30).2 * 100 > 70) ∧
    ((detailedOutcome demoModel demoScaler specFeatureInfo input30).overall_risk = "High" ↔
      (probaOf demoModel demoScaler specFeatureInfo input30).2 > 7/10) ∧
    (predictOutcome demoModel demoScaler specFeatureInfo input30).risk_level =
      (detailedOutcome demoModel demoScaler specFeatureInfo input30).overall_risk :=
  ⟨(claim_C6_risk_bucket_thresholds demoModel demoScaler specFeatureInfo input30
      (by decide) (by decide)).2.2.1,
   (claim_C6_risk_bucket_thresholds demoModel demoScaler specFeatureInfo input30
      (by decide) (by decide)).2.2.2.2.2.1,
   (claim_C6_risk_bucket_thresholds demoModel demoScaler specFeatureInfo input30
      (by decide) (by decide)).2.2.2.2.2.2.2.2⟩

/-- C5: for every valid input, `/detailed-analysis` assigns each feature a
per-feature risk tier by its own name-keyed threshold set (particle size <
50 → High, surface area > 200 → Medium, concentration > 500 → High,
|zeta potential| < 15 → Medium, otherwise Low — `specTier`), a threshold set
distinct from the §4.2 risk-factor list; in particular `particle_size_nm=30`
yields the `High` per-feature tier in `/detailed-analysis` and also triggers
the small-particle-size global risk factor in `/predict`. -/
theorem claim_C5_per_feature_tiers (m : Model) (sc : Scaler)
    (fi : FeatureInfo) (entries : List (String × Json))
    (hnum : allNumeric entries = true) (hall : hasAllNames fi.names entries = true) :
    detailedHandler (some m) (some sc) (some fi) (some (.obj entries)) =
      (.success (detailedOutcome m sc fi entries),
        [MLCall.scalerTransform, MLCall.predictProba, MLCall.predictLabel]) ∧
    (∀ e ∈ (detailedOutcome m sc fi entries).feature_analysis,
      e.risk_level = featureRiskLevel e.name e.value) ∧
    (∀ n v, featureRiskLevel n v = specTier n v) ∧
    specTier "particle_size_nm" 30 = "High" ∧
    (detailedOutcome demoModel demoScaler specFeatureInfo
        input30).feature_analysis.head?.map FeatureEntry.name =
      some "particle_size_nm" ∧
    (detailedOutcome demoModel demoScaler specFeatureInfo
        input30).feature_analysis.head?.map FeatureEntry.risk_level = some "High" ∧
    factorSize ∈ (predictOutcome demoModel demoScaler specFeatureInfo
      input30).risk_factors ∧
    (predictHandler (some demoModel) (some demoScaler) (some specFeatureInfo)
        (some (.obj input30))).1 =
      .success (predictOutcome demoModel demoScaler specFeatureInfo input30) := by
  refine ⟨detailed_success m sc fi entries hnum hall, ?_,
    featureRiskLevel_eq_specTier, by decide, rfl, rfl, by decide,
    by rw [predict_success demoModel demoScaler specFeatureInfo input30
      (by decide) (by decide)]⟩
  intro e he
  exact mem_featureEntries m fi.descriptions 0 _ e he

theorem claim_C5_witness :
    specTier "particle_size_nm" 30 = "High" ∧
    (detailedOutcome demoModel demoScaler specFeatureInfo
        input30).feature_analysis.head?.map FeatureEntry.risk_level = some "High" ∧
    factorSize ∈ (predictOutcome demoModel demoScaler specFeatureInfo
      input30).risk_factors :=
  ⟨(claim_C5_per_feature_tiers demoModel demoScaler specFeatureInfo input30
      (by decide) (by decide)).2.2.2.1,
   (claim_C5_per_feature_tiers demoModel demoScaler specFeatureInfo input30
      (by decide) (by decide)).2.2.2.2.2.1,
   (claim_C5_per_feature_tiers demoModel demoScaler specFeatureInfo input30
      (by decide) (by decide)).2.2.2.2.2.2.1⟩
